import Mathlib

/-!
Verification of the `AgriSupplyChain` Solidity contract (the ledger execution
engine of the SieveX-Agrichain repository) against its natural-language
specification.

The contract state is embedded shallowly: Solidity mappings become total
functions returning the zero value of the value type (the EVM default for an
unwritten slot), `address` becomes `Nat` (with `0` playing the role of
`address(0)`; the EVM guarantees `msg.sender` is never the zero address),
`uint256`/`int256` become `Nat`/`Int` (the quantities involved never approach
`2 ^ 256` in any scenario considered, and the source performs no wrapping
arithmetic), and `block.timestamp` is passed in as an explicit `now` argument.

Every external function is embedded as a Lean function from its arguments and
the pre-state to `Except Err (State × ρ)` where `ρ` is the Solidity-declared
return type and `Err` is the revert string.  A `require` failure reverts the
whole call on the EVM, so an `.error` result carries no state: the caller
observes the untouched pre-state.  Each embedded body performs its checks in
the exact source order (modifiers first, in their declaration order) and only
then builds the successor state, mirroring the source line by line.

`completeTransaction` is split into `completeTransactionCore`, which returns
the state as it stands at the moment the two external value transfers are
performed (the checks-effects-interactions point, with the `ReentrancyGuard`
still held), paired with the list of pending value transfers, and the outer
`completeTransaction`, which releases the guard.  This makes the mutate-before-
transfer ordering of the source directly visible to the theorems.
-/

namespace Agri

/-- An EVM address; `0` is `address(0)`, never a real sender. -/
abbrev Address := Nat

/-- A revert reason string, exactly the `require` messages of the source. -/
abbrev Err := String

inductive Role
  | Farmer
  | Supplier
  | Distributor
  | Retailer
deriving DecidableEq

inductive Stage
  | Harvested
  | Processed
  | InTransit
  | Delivered
  | Sold
deriving DecidableEq

/-- Numeric value of a stage, as in the `uint8` cast of the source. -/
def Stage.toNat : Stage → Nat
  | .Harvested => 0
  | .Processed => 1
  | .InTransit => 2
  | .Delivered => 3
  | .Sold => 4

inductive Quality
  | Excellent
  | Good
  | Fair
  | Poor
deriving DecidableEq

/-- Source `getQualityString` (the trailing `return "Unknown"` of the source is
unreachable: the four enum cases are exhaustive). -/
def getQualityString : Quality → String
  | .Excellent => "Excellent"
  | .Good => "Good"
  | .Fair => "Fair"
  | .Poor => "Poor"

structure Participant where
  name : String
  location : String
  role : Role
  isActive : Bool
  reputation : Nat
deriving DecidableEq

/-- Zero value of a `Participant` mapping slot. -/
def defaultParticipant : Participant :=
  { name := "", location := "", role := Role.Farmer, isActive := false, reputation := 0 }

structure Product where
  productId : Nat
  productName : String
  variety : String
  quantity : Nat
  harvestDate : String
  farmer : Address
  currentQuality : Quality
  isOrganic : Bool
  certifications : List String
deriving DecidableEq

/-- Zero value of a `Product` mapping slot. -/
def defaultProduct : Product :=
  { productId := 0, productName := "", variety := "", quantity := 0, harvestDate := "",
    farmer := 0, currentQuality := Quality.Excellent, isOrganic := false, certifications := [] }

structure BatchTracking where
  batchId : Nat
  productId : Nat
  currentStage : Stage
  currentOwner : Address
  timestamp : Nat
  location : String
  ownershipHistory : List Address
  locationHistory : List String
  stageTimestamps : List Nat
  notes : String
deriving DecidableEq

/-- Zero value of a `BatchTracking` mapping slot. -/
def defaultBatch : BatchTracking :=
  { batchId := 0, productId := 0, currentStage := Stage.Harvested, currentOwner := 0,
    timestamp := 0, location := "", ownershipHistory := [], locationHistory := [],
    stageTimestamps := [], notes := "" }

structure EnvironmentRecord where
  timestamp : Nat
  temperature : Int
  humidity : Nat
  location : String
  recorder : Address
  notes : String
deriving DecidableEq

/-- Source struct `Transaction` (named `Txn` here to avoid clashing with the
surrounding library; the Solidity field `from` becomes `fromAddr`). -/
structure Txn where
  transactionId : Nat
  batchId : Nat
  fromAddr : Address
  toAddr : Address
  timestamp : Nat
  price : Nat
  transactionType : String
  completed : Bool
deriving DecidableEq

/-- Zero value of a `Transaction` mapping slot. -/
def defaultTxn : Txn :=
  { transactionId := 0, batchId := 0, fromAddr := 0, toAddr := 0, timestamp := 0,
    price := 0, transactionType := "", completed := false }

/-- Full contract storage: the six mappings, the three id counters, the
`Ownable` owner and the `ReentrancyGuard` status flag. -/
structure State where
  owner : Address
  locked : Bool
  participants : Address → Participant
  products : Nat → Product
  batches : Nat → BatchTracking
  transactions : Nat → Txn
  qrCodeToBatch : String → Nat
  batchEnvironmentData : Nat → List EnvironmentRecord
  nextProductId : Nat
  nextBatchId : Nat
  nextTransactionId : Nat

/-- Storage right after the constructor runs, deployed by `deployer`. -/
def initialState (deployer : Address) : State :=
  { owner := deployer, locked := false,
    participants := fun _ => defaultParticipant,
    products := fun _ => defaultProduct,
    batches := fun _ => defaultBatch,
    transactions := fun _ => defaultTxn,
    qrCodeToBatch := fun _ => 0,
    batchEnvironmentData := fun _ => [],
    nextProductId := 1, nextBatchId := 1, nextTransactionId := 1 }

/-- Source `registerParticipant`. -/
def registerParticipant (caller : Address) (name location : String) (role : Role)
    (s : State) : Except Err (State × Unit) :=
  if (s.participants caller).isActive = true then .error "Already registered"
  else if name = "" then .error "Name cannot be empty"
  else if location = "" then .error "Location cannot be empty"
  else
    let p : Participant :=
      { name := name, location := location, role := role, isActive := true, reputation := 100 }
    .ok ({ s with participants := Function.update s.participants caller p }, ())

/-- Source `createProduct`; returns the new product id. -/
def createProduct (caller : Address) (productName variety : String) (quantity : Nat)
    (harvestDate : String) (isOrganic : Bool) (certifications : List String)
    (s : State) : Except Err (State × Nat) :=
  if (s.participants caller).isActive = false then .error "Not a registered participant"
  else if (s.participants caller).role ≠ Role.Farmer then .error "Unauthorized role"
  else if productName = "" then .error "Product name cannot be empty"
  else if quantity = 0 then .error "Quantity must be greater than 0"
  else
    let p : Product :=
      { productId := s.nextProductId, productName := productName, variety := variety,
        quantity := quantity, harvestDate := harvestDate, farmer := caller,
        currentQuality := Quality.Excellent, isOrganic := isOrganic,
        certifications := certifications }
    .ok ({ s with
            products := Function.update s.products s.nextProductId p,
            nextProductId := s.nextProductId + 1 }, s.nextProductId)

/-- Source `createBatch`; returns the new batch id. -/
def createBatch (caller : Address) (productId : Nat) (qrCode initialLocation : String)
    (now : Nat) (s : State) : Except Err (State × Nat) :=
  if (s.participants caller).isActive = false then .error "Not a registered participant"
  else if (s.participants caller).role ≠ Role.Farmer then .error "Unauthorized role"
  else if (s.products productId).farmer ≠ caller then .error "Not the product owner"
  else if s.qrCodeToBatch qrCode ≠ 0 then .error "QR code already exists"
  else if qrCode = "" then .error "QR code cannot be empty"
  else if initialLocation = "" then .error "Location cannot be empty"
  else
    let b : BatchTracking :=
      { batchId := s.nextBatchId, productId := productId, currentStage := Stage.Harvested,
        currentOwner := caller, timestamp := now, location := initialLocation,
        ownershipHistory := [caller], locationHistory := [initialLocation],
        stageTimestamps := [now], notes := "" }
    .ok ({ s with
            batches := Function.update s.batches s.nextBatchId b,
            qrCodeToBatch := Function.update s.qrCodeToBatch qrCode s.nextBatchId,
            nextBatchId := s.nextBatchId + 1 }, s.nextBatchId)

/-- Source `recordEnvironmentData` (declares no return value). -/
def recordEnvironmentData (caller : Address) (batchId : Nat) (temperature : Int)
    (humidity : Nat) (location notes : String) (now : Nat)
    (s : State) : Except Err (State × Unit) :=
  if (s.participants caller).isActive = false then .error "Not a registered participant"
  else if ¬(0 < batchId ∧ batchId < s.nextBatchId) then .error "Invalid batch ID"
  else if location = "" then .error "Location cannot be empty"
  else
    let r : EnvironmentRecord :=
      { timestamp := now, temperature := temperature, humidity := humidity,
        location := location, recorder := caller, notes := notes }
    let log := s.batchEnvironmentData batchId ++ [r]
    .ok ({ s with batchEnvironmentData := Function.update s.batchEnvironmentData batchId log }, ())

/-- Source `transferBatchOwnership` (modifier order: `validBatch`,
`onlyCurrentOwner`, `onlyRegistered`, then the body requires). -/
def transferBatchOwnership (caller : Address) (batchId : Nat) (newOwner : Address)
    (newStage : Stage) (newLocation : String) (now : Nat)
    (s : State) : Except Err (State × Unit) :=
  if ¬(0 < batchId ∧ batchId < s.nextBatchId) then .error "Invalid batch ID"
  else if (s.batches batchId).currentOwner ≠ caller then .error "Not the current owner"
  else if (s.participants caller).isActive = false then .error "Not a registered participant"
  else if (s.participants newOwner).isActive = false then .error "New owner not registered"
  else if newStage = (s.batches batchId).currentStage then .error "Stage must change"
  else if ¬((s.batches batchId).currentStage.toNat < newStage.toNat) then
    .error "Stage must progress forward"
  else if newLocation = "" then .error "Location cannot be empty"
  else
    let b :=
      { s.batches batchId with
        currentOwner := newOwner, currentStage := newStage,
        location := newLocation, timestamp := now,
        ownershipHistory := (s.batches batchId).ownershipHistory ++ [newOwner],
        locationHistory := (s.batches batchId).locationHistory ++ [newLocation],
        stageTimestamps := (s.batches batchId).stageTimestamps ++ [now] }
    .ok ({ s with batches := Function.update s.batches batchId b }, ())

/-- Source `updateQuality`. -/
def updateQuality (caller : Address) (batchId : Nat) (newQuality : Quality)
    (reason : String) (s : State) : Except Err (State × Unit) :=
  if (s.participants caller).isActive = false then .error "Not a registered participant"
  else if ¬(0 < batchId ∧ batchId < s.nextBatchId) then .error "Invalid batch ID"
  else if ¬((s.batches batchId).currentOwner = caller ∨
            (s.participants caller).role = Role.Supplier ∨
            (s.participants caller).role = Role.Distributor) then
    .error "Not authorized to update quality"
  else
    let pid := (s.batches batchId).productId
    let p := { s.products pid with currentQuality := newQuality }
    let s1 := { s with products := Function.update s.products pid p }
    if reason = "" then .ok (s1, ())
    else
      let b :=
        { s1.batches batchId with
          notes := (s1.batches batchId).notes ++ " | Quality updated to " ++
                   getQualityString newQuality ++ ": " ++ reason }
      .ok ({ s1 with batches := Function.update s1.batches batchId b }, ())

/-- Source `addBatchNote`. -/
def addBatchNote (caller : Address) (batchId : Nat) (note : String)
    (s : State) : Except Err (State × Unit) :=
  if (s.participants caller).isActive = false then .error "Not a registered participant"
  else if ¬(0 < batchId ∧ batchId < s.nextBatchId) then .error "Invalid batch ID"
  else if note = "" then .error "Note cannot be empty"
  else
    let b := { s.batches batchId with notes := (s.batches batchId).notes ++ " | " ++ note }
    .ok ({ s with batches := Function.update s.batches batchId b }, ())

/-- Source `createTransaction`; returns the new transaction id. -/
def createTransaction (caller : Address) (batchId : Nat) (buyer : Address)
    (price : Nat) (transactionType : String) (now : Nat)
    (s : State) : Except Err (State × Nat) :=
  if ¬(0 < batchId ∧ batchId < s.nextBatchId) then .error "Invalid batch ID"
  else if (s.batches batchId).currentOwner ≠ caller then .error "Not the current owner"
  else if (s.participants buyer).isActive = false then .error "Buyer not registered"
  else if price = 0 then .error "Price must be greater than 0"
  else if transactionType = "" then .error "Transaction type cannot be empty"
  else
    let t : Txn :=
      { transactionId := s.nextTransactionId, batchId := batchId, fromAddr := caller,
        toAddr := buyer, timestamp := now, price := price,
        transactionType := transactionType, completed := false }
    .ok ({ s with
            transactions := Function.update s.transactions s.nextTransactionId t,
            nextTransactionId := s.nextTransactionId + 1 }, s.nextTransactionId)

/-- Source `completeTransaction` up to (and excluding) the two external value
transfers.  The returned state is the storage exactly as the recipients of the
transfers observe it — the completed flag set, the batch owner reassigned, one
history triple appended, the reentrancy guard still held — and the returned
list is the pending transfers `(recipient, amount)` in source order: the price
to the seller, then any excess back to the buyer. -/
def completeTransactionCore (caller : Address) (transactionId : Nat) (msgValue : Nat)
    (now : Nat) (s : State) : Except Err (State × List (Address × Nat)) :=
  if s.locked = true then .error "ReentrancyGuard: reentrant call"
  else
    let txn := s.transactions transactionId
    if caller ≠ txn.toAddr then .error "Not the buyer"
    else if txn.completed = true then .error "Already completed"
    else if msgValue < txn.price then .error "Insufficient payment"
    else
      let batch := s.batches txn.batchId
      let b :=
        { batch with
          currentOwner := txn.toAddr, timestamp := now,
          ownershipHistory := batch.ownershipHistory ++ [txn.toAddr],
          locationHistory := batch.locationHistory ++ [batch.location],
          stageTimestamps := batch.stageTimestamps ++ [now] }
      let transfers :=
        [(txn.fromAddr, txn.price)] ++
          (if txn.price < msgValue then [(caller, msgValue - txn.price)] else [])
      let t := { txn with completed := true }
      .ok ({ s with
              locked := true,
              transactions := Function.update s.transactions transactionId t,
              batches := Function.update s.batches txn.batchId b }, transfers)

/-- Source `completeTransaction`: the core, then the `nonReentrant` modifier
releases the guard on exit (a revert anywhere restores the pre-state whole). -/
def completeTransaction (caller : Address) (transactionId : Nat) (msgValue : Nat)
    (now : Nat) (s : State) : Except Err (State × Unit) :=
  match completeTransactionCore caller transactionId msgValue now s with
  | .error e => .error e
  | .ok (s2, _) => .ok ({ s2 with locked := false }, ())

/-- Source `updateParticipantReputation` (`onlyOwner`). -/
def updateParticipantReputation (caller : Address) (participant : Address)
    (newReputation : Nat) (s : State) : Except Err (State × Unit) :=
  if caller ≠ s.owner then .error "Ownable: caller is not the owner"
  else if (s.participants participant).isActive = false then .error "Participant not active"
  else
    let p := { s.participants participant with reputation := newReputation }
    .ok ({ s with participants := Function.update s.participants participant p }, ())

/-- Source `deactivateParticipant` (`onlyOwner`; note the body performs no
existence or activity check on the target). -/
def deactivateParticipant (caller : Address) (participant : Address)
    (s : State) : Except Err (State × Unit) :=
  if caller ≠ s.owner then .error "Ownable: caller is not the owner"
  else
    let p := { s.participants participant with isActive := false }
    .ok ({ s with participants := Function.update s.participants participant p }, ())


/-- Source view `getBatchHistory` (`validBatch` modifier). -/
def getBatchHistory (s : State) (batchId : Nat) :
    Except Err (List Address × List String × List Nat) :=
  if ¬(0 < batchId ∧ batchId < s.nextBatchId) then .error "Invalid batch ID"
  else .ok ((s.batches batchId).ownershipHistory, (s.batches batchId).locationHistory,
            (s.batches batchId).stageTimestamps)

/-- Source view `getEnvironmentDataCount` (`validBatch` modifier). -/
def getEnvironmentDataCount (s : State) (batchId : Nat) : Except Err Nat :=
  if ¬(0 < batchId ∧ batchId < s.nextBatchId) then .error "Invalid batch ID"
  else .ok (s.batchEnvironmentData batchId).length

/-- Source view `getEnvironmentData` (`validBatch` modifier plus index bound). -/
def getEnvironmentData (s : State) (batchId index : Nat) :
    Except Err (Nat × Int × Nat × String × Address × String) :=
  if ¬(0 < batchId ∧ batchId < s.nextBatchId) then .error "Invalid batch ID"
  else if ¬(index < (s.batchEnvironmentData batchId).length) then .error "Invalid index"
  else
    let r := (s.batchEnvironmentData batchId).getD index
      { timestamp := 0, temperature := 0, humidity := 0, location := "", recorder := 0, notes := "" }
    .ok (r.timestamp, r.temperature, r.humidity, r.location, r.recorder, r.notes)

/-- Source view `getBatchByQR`: a bare mapping read, no checks possible to
fail, so it always answers. -/
def getBatchByQR (s : State) (qrCode : String) : Except Err Nat :=
  .ok (s.qrCodeToBatch qrCode)

/-- Source view `getProductInfo`: reads the `products` slot with no existence
check of any kind, so it always answers (with the zero record for an
unassigned id). -/
def getProductInfo (s : State) (productId : Nat) :
    Except Err (String × String × Nat × Address × Quality × Bool × List String) :=
  .ok ((s.products productId).productName, (s.products productId).variety,
       (s.products productId).quantity, (s.products productId).farmer,
       (s.products productId).currentQuality, (s.products productId).isOrganic,
       (s.products productId).certifications)

/-- One external call to the contract: the operation name, the sender
(`caller`), the arguments, and the block timestamp where the source reads
`block.timestamp`. -/
inductive Op
  | register (caller : Address) (name location : String) (role : Role)
  | mkProduct (caller : Address) (productName variety : String) (quantity : Nat)
      (harvestDate : String) (isOrganic : Bool) (certifications : List String)
  | mkBatch (caller : Address) (productId : Nat) (qrCode initialLocation : String) (now : Nat)
  | recordEnv (caller : Address) (batchId : Nat) (temperature : Int) (humidity : Nat)
      (location notes : String) (now : Nat)
  | transfer (caller : Address) (batchId : Nat) (newOwner : Address) (newStage : Stage)
      (newLocation : String) (now : Nat)
  | setQuality (caller : Address) (batchId : Nat) (newQuality : Quality) (reason : String)
  | addNote (caller : Address) (batchId : Nat) (note : String)
  | mkTxn (caller : Address) (batchId : Nat) (buyer : Address) (price : Nat)
      (transactionType : String) (now : Nat)
  | completeTxn (caller : Address) (transactionId msgValue now : Nat)
  | setReputation (caller : Address) (participant : Address) (newReputation : Nat)
  | deactivate (caller : Address) (participant : Address)

/-- The sender of an operation. -/
def Op.sender : Op → Address
  | .register c _ _ _ => c
  | .mkProduct c _ _ _ _ _ _ => c
  | .mkBatch c _ _ _ _ => c
  | .recordEnv c _ _ _ _ _ _ => c
  | .transfer c _ _ _ _ _ => c
  | .setQuality c _ _ _ => c
  | .addNote c _ _ => c
  | .mkTxn c _ _ _ _ _ => c
  | .completeTxn c _ _ _ => c
  | .setReputation c _ _ => c
  | .deactivate c _ => c

/-- Execute one call, forgetting the declared return value. -/
def exec : Op → State → Except Err State
  | .register c n l r, s => (registerParticipant c n l r s).map Prod.fst
  | .mkProduct c n v q hd og ce, s => (createProduct c n v q hd og ce s).map Prod.fst
  | .mkBatch c p qr l now, s => (createBatch c p qr l now s).map Prod.fst
  | .recordEnv c b t h l n now, s => (recordEnvironmentData c b t h l n now s).map Prod.fst
  | .transfer c b o st l now, s => (transferBatchOwnership c b o st l now s).map Prod.fst
  | .setQuality c b q r, s => (updateQuality c b q r s).map Prod.fst
  | .addNote c b n, s => (addBatchNote c b n s).map Prod.fst
  | .mkTxn c b buyer pr ty now, s => (createTransaction c b buyer pr ty now s).map Prod.fst
  | .completeTxn c t v now, s => (completeTransaction c t v now s).map Prod.fst
  | .setReputation c p r, s => (updateParticipantReputation c p r s).map Prod.fst
  | .deactivate c p, s => (deactivateParticipant c p s).map Prod.fst

/-- Ledger semantics of one submitted call: a revert (an `.error` result)
leaves the storage exactly as it was. -/
def stepOp (s : State) (op : Op) : State :=
  match exec op s with
  | .ok s1 => s1
  | .error _ => s

/-- States the deployed contract can be in: the constructor state followed by
any sequence of external calls.  The side condition `op.sender ≠ 0` is the EVM
guarantee that `msg.sender` is never the zero address. -/
inductive Reachable : State → Prop
  | init (deployer : Address) : Reachable (initialState deployer)
  | step {s : State} (op : Op) : Reachable s → op.sender ≠ 0 → Reachable (stepOp s op)

/-- Any sequence of further calls leading from one state to another (no sender
restriction: used for monotone facts that hold regardless). -/
inductive StepsFrom : State → State → Prop
  | refl (s : State) : StepsFrom s s
  | step {s t : State} (op : Op) : StepsFrom s t → StepsFrom s (stepOp t op)

/-- A producer registered as participant 1 on a fresh deployment. -/
def demoA : State := stepOp (initialState 1) (.register 1 "Farm A" "California" Role.Farmer)

/-- Additionally a retailer registered as participant 2. -/
def demoB : State := stepOp demoA (.register 2 "Fresh Market" "Arizona" Role.Retailer)

/-- Additionally product 1 created by the producer. -/
def demoC : State := stepOp demoB (.mkProduct 1 "Tomatoes" "Roma" 1000 "2024-01-01" true [])

/-- Additionally batch 1 created from product 1 under code `QR1`. -/
def demoD : State := stepOp demoC (.mkBatch 1 1 "QR1" "Warehouse" 100)

/-- Additionally escrow transaction 1 (seller 1, buyer 2, price 100). -/
def demoE : State := stepOp demoD (.mkTxn 1 1 2 100 "sale" 200)

/-- Additionally one environment record on batch 1. -/
def demoF : State := stepOp demoD (.recordEnv 1 1 5 60 "Cold room" "" 250)

/-- The storage exactly as `completeTransaction` has it at the moment it
performs its value transfers (derived from `completeTransactionCore`): the
completed flag set, the batch rewritten to the buyer, the guard still held. -/
def settlementState (s : State) (txId now : Nat) : State :=
  { s with
    locked := true,
    transactions := (Function.update s.transactions txId
      { s.transactions txId with completed := true }),
    batches := (Function.update s.batches (s.transactions txId).batchId
      { s.batches (s.transactions txId).batchId with
        currentOwner := (s.transactions txId).toAddr, timestamp := now,
        ownershipHistory := ((s.batches (s.transactions txId).batchId).ownershipHistory ++
          [(s.transactions txId).toAddr]),
        locationHistory := ((s.batches (s.transactions txId).batchId).locationHistory ++
          [(s.batches (s.transactions txId).batchId).location]),
        stageTimestamps := ((s.batches (s.transactions txId).batchId).stageTimestamps ++
          [now]) }) }

/-- The storage after a successful `completeTransaction` returns (the guard
released, everything else as at the transfer moment). -/
def settledState (s : State) (txId now : Nat) : State :=
  { settlementState s txId now with locked := false }

/-- The storage invariant maintained by every reachable state: the guard is
released between calls, the three id counters start at one and never return
to zero, every created batch carries three equal-length non-empty histories
and references a created product, and every slot outside the assigned id
ranges still holds its zero value. -/
structure Inv (s : State) : Prop where
  locked_eq : s.locked = false
  one_le_prod : 0 < s.nextProductId
  one_le_batch : 0 < s.nextBatchId
  one_le_txn : 0 < s.nextTransactionId
  hist : ∀ b, 0 < b → b < s.nextBatchId →
    (s.batches b).ownershipHistory.length = (s.batches b).locationHistory.length ∧
    (s.batches b).locationHistory.length = (s.batches b).stageTimestamps.length ∧
    0 < (s.batches b).ownershipHistory.length
  prodDefault : ∀ p, ¬(0 < p ∧ p < s.nextProductId) → s.products p = defaultProduct
  batchProd : ∀ b, 0 < b → b < s.nextBatchId →
    0 < (s.batches b).productId ∧ (s.batches b).productId < s.nextProductId
  txnDefault : ∀ t, ¬(0 < t ∧ t < s.nextTransactionId) → s.transactions t = defaultTxn

/-- A `register` step either reverts (leaving the state) or writes exactly the
fresh participant record. -/
lemma stepOp_register (c : Address) (n l : String) (r : Role) (s : State) :
    stepOp s (.register c n l r) = s ∨
    stepOp s (.register c n l r) =
      { s with participants := (Function.update s.participants c
          ⟨n, l, r, true, 100⟩) } := by
  simp only [stepOp, exec, registerParticipant]
  split_ifs <;> first | exact Or.inl rfl | exact Or.inr rfl

/-- A `createProduct` step either reverts or writes the next product slot and
bumps the counter. -/
lemma stepOp_mkProduct (c : Address) (n v : String) (q : Nat) (hd : String) (og : Bool)
    (ce : List String) (s : State) :
    stepOp s (.mkProduct c n v q hd og ce) = s ∨
    stepOp s (.mkProduct c n v q hd og ce) =
      { s with
        products := (Function.update s.products s.nextProductId
          ⟨s.nextProductId, n, v, q, hd, c, Quality.Excellent, og, ce⟩),
        nextProductId := s.nextProductId + 1 } := by
  simp only [stepOp, exec, createProduct]
  split_ifs <;> first | exact Or.inl rfl | exact Or.inr rfl

/-- A `createBatch` step either reverts or — with the caller owning the
product and the code unmapped — writes the next batch slot, maps the code and
bumps the counter. -/
lemma stepOp_mkBatch (c : Address) (pid : Nat) (qr l : String) (now : Nat) (s : State) :
    stepOp s (.mkBatch c pid qr l now) = s ∨
    ((s.products pid).farmer = c ∧ s.qrCodeToBatch qr = 0 ∧
      stepOp s (.mkBatch c pid qr l now) =
        { s with
          batches := (Function.update s.batches s.nextBatchId
            ⟨s.nextBatchId, pid, Stage.Harvested, c, now, l, [c], [l], [now], ""⟩),
          qrCodeToBatch := (Function.update s.qrCodeToBatch qr s.nextBatchId),
          nextBatchId := s.nextBatchId + 1 }) := by
  simp only [stepOp, exec, createBatch]
  split_ifs <;>
    first
      | exact Or.inl rfl
      | exact Or.inr ⟨not_not.mp (show ¬(s.products pid).farmer ≠ c by assumption),
          not_not.mp (show ¬s.qrCodeToBatch qr ≠ 0 by assumption), rfl⟩

/-- A `recordEnvironmentData` step either reverts or appends one record to the
log of the named batch. -/
lemma stepOp_recordEnv (c : Address) (b : Nat) (t : Int) (h : Nat) (l n : String)
    (now : Nat) (s : State) :
    stepOp s (.recordEnv c b t h l n now) = s ∨
    stepOp s (.recordEnv c b t h l n now) =
      { s with batchEnvironmentData := (Function.update s.batchEnvironmentData b
          (s.batchEnvironmentData b ++ [⟨now, t, h, l, c, n⟩])) } := by
  simp only [stepOp, exec, recordEnvironmentData]
  split_ifs <;> first | exact Or.inl rfl | exact Or.inr rfl

/-- A `transferOwnership` step either reverts or rewrites the named batch with
one entry appended to each of its three histories. -/
lemma stepOp_transfer (c : Address) (b : Nat) (o : Address) (st : Stage) (l : String)
    (now : Nat) (s : State) :
    stepOp s (.transfer c b o st l now) = s ∨
    stepOp s (.transfer c b o st l now) =
      { s with batches := (Function.update s.batches b
          { s.batches b with
            currentOwner := o, currentStage := st, location := l, timestamp := now,
            ownershipHistory := (s.batches b).ownershipHistory ++ [o],
            locationHistory := (s.batches b).locationHistory ++ [l],
            stageTimestamps := (s.batches b).stageTimestamps ++ [now] }) } := by
  simp only [stepOp, exec, transferBatchOwnership]
  split_ifs <;> first | exact Or.inl rfl | exact Or.inr rfl

/-- An `updateQuality` step either reverts or — on a valid batch — rewrites the
quality of the linked product and possibly also the notes of the batch. -/
lemma stepOp_setQuality (c : Address) (b : Nat) (q : Quality) (re : String) (s : State) :
    stepOp s (.setQuality c b q re) = s ∨
    (0 < b ∧ b < s.nextBatchId ∧
      (stepOp s (.setQuality c b q re) =
        { s with products := (Function.update s.products (s.batches b).productId
            { s.products (s.batches b).productId with currentQuality := q }) } ∨
       stepOp s (.setQuality c b q re) =
        { s with
          products := (Function.update s.products (s.batches b).productId
            { s.products (s.batches b).productId with currentQuality := q }),
          batches := (Function.update s.batches b
            { s.batches b with
              notes := (s.batches b).notes ++ " | Quality updated to " ++
                       getQualityString q ++ ": " ++ re }) })) := by
  simp only [stepOp, exec, updateQuality]
  split_ifs <;>
    first
      | exact Or.inl rfl
      | exact Or.inr ⟨(show 0 < b ∧ b < s.nextBatchId by assumption).1,
          (show 0 < b ∧ b < s.nextBatchId by assumption).2, Or.inl rfl⟩
      | exact Or.inr ⟨(show 0 < b ∧ b < s.nextBatchId by assumption).1,
          (show 0 < b ∧ b < s.nextBatchId by assumption).2, Or.inr rfl⟩

/-- An `addBatchNote` step either reverts or appends to the notes of the named
batch. -/
lemma stepOp_addNote (c : Address) (b : Nat) (n : String) (s : State) :
    stepOp s (.addNote c b n) = s ∨
    stepOp s (.addNote c b n) =
      { s with batches := (Function.update s.batches b
          { s.batches b with notes := (s.batches b).notes ++ " | " ++ n }) } := by
  simp only [stepOp, exec, addBatchNote]
  split_ifs <;> first | exact Or.inl rfl | exact Or.inr rfl

/-- A `createTransaction` step either reverts or writes the next transaction
slot (pending, `completed = false`) and bumps the counter. -/
lemma stepOp_mkTxn (c : Address) (b : Nat) (buyer : Address) (pr : Nat) (ty : String)
    (now : Nat) (s : State) :
    stepOp s (.mkTxn c b buyer pr ty now) = s ∨
    stepOp s (.mkTxn c b buyer pr ty now) =
      { s with
        transactions := (Function.update s.transactions s.nextTransactionId
          ⟨s.nextTransactionId, b, c, buyer, now, pr, ty, false⟩),
        nextTransactionId := s.nextTransactionId + 1 } := by
  simp only [stepOp, exec, createTransaction]
  split_ifs <;> first | exact Or.inl rfl | exact Or.inr rfl

/-- A `completeTransaction` step either reverts or — the caller then being the
stored buyer — marks the transaction completed and rewrites the referenced
batch with one history triple appended (owner becomes the buyer, location
repeated, stage untouched). -/
lemma stepOp_completeTxn (c : Address) (t v now : Nat) (s : State) :
    stepOp s (.completeTxn c t v now) = s ∨
    (c = (s.transactions t).toAddr ∧
      stepOp s (.completeTxn c t v now) =
        { s with
          locked := false,
          transactions := (Function.update s.transactions t
            { s.transactions t with completed := true }),
          batches := (Function.update s.batches (s.transactions t).batchId
            { s.batches (s.transactions t).batchId with
              currentOwner := (s.transactions t).toAddr, timestamp := now,
              ownershipHistory := ((s.batches (s.transactions t).batchId).ownershipHistory ++
                [(s.transactions t).toAddr]),
              locationHistory := ((s.batches (s.transactions t).batchId).locationHistory ++
                [(s.batches (s.transactions t).batchId).location]),
              stageTimestamps := ((s.batches (s.transactions t).batchId).stageTimestamps ++
                [now]) }) }) := by
  simp only [stepOp, exec, completeTransaction, completeTransactionCore]
  split_ifs <;>
    first
      | exact Or.inl rfl
      | exact Or.inr ⟨not_not.mp (show ¬c ≠ (s.transactions t).toAddr by assumption), rfl⟩

/-- An `updateParticipantReputation` step either reverts or rewrites the
reputation of the named participant. -/
lemma stepOp_setReputation (c p : Address) (r : Nat) (s : State) :
    stepOp s (.setReputation c p r) = s ∨
    stepOp s (.setReputation c p r) =
      { s with participants := (Function.update s.participants p
          { s.participants p with reputation := r }) } := by
  simp only [stepOp, exec, updateParticipantReputation]
  split_ifs <;> first | exact Or.inl rfl | exact Or.inr rfl

/-- A `deactivateParticipant` step either reverts or clears the active flag of
the named participant. -/
lemma stepOp_deactivate (c p : Address) (s : State) :
    stepOp s (.deactivate c p) = s ∨
    stepOp s (.deactivate c p) =
      { s with participants := (Function.update s.participants p
          { s.participants p with isActive := false }) } := by
  simp only [stepOp, exec, deactivateParticipant]
  split_ifs <;> first | exact Or.inl rfl | exact Or.inr rfl

/-- The constructor state satisfies the invariant. -/
lemma inv_init (deployer : Address) : Inv (initialState deployer) := by
  refine ⟨rfl, ?_, ?_, ?_, ?_, ?_, ?_, ?_⟩ <;>
    simp [initialState] <;> omega

/-- Every call preserves the invariant (using the EVM guarantee that the
sender is not the zero address). -/
lemma inv_step {s : State} (op : Op) (h : Inv s) (hc : op.sender ≠ 0) :
    Inv (stepOp s op) := by
  cases op with
  | register c n l r =>
      rcases stepOp_register c n l r s with hstep | hstep <;> rw [hstep]
      · exact h
      · exact ⟨h.locked_eq, h.one_le_prod, h.one_le_batch, h.one_le_txn, h.hist,
          h.prodDefault, h.batchProd, h.txnDefault⟩
  | mkProduct c n v q hd og ce =>
      rcases stepOp_mkProduct c n v q hd og ce s with hstep | hstep <;> rw [hstep]
      · exact h
      · refine ⟨h.locked_eq, ?_, h.one_le_batch, h.one_le_txn, h.hist, ?_, ?_, h.txnDefault⟩
        · dsimp only
          omega
        · dsimp only
          intro p hp
          have honep := h.one_le_prod
          have hne : p ≠ s.nextProductId := by omega
          rw [Function.update_noteq hne]
          refine h.prodDefault p ?_
          intro hcon
          exact hp ⟨hcon.1, by omega⟩
        · dsimp only
          intro b hb1 hb2
          obtain ⟨x1, x2⟩ := h.batchProd b hb1 hb2
          exact ⟨x1, by omega⟩
  | mkBatch c pid qr l now =>
      rcases stepOp_mkBatch c pid qr l now s with hstep | ⟨hfarm, hqr, hstep⟩ <;> rw [hstep]
      · exact h
      · have hpid : 0 < pid ∧ pid < s.nextProductId := by
          by_contra hcon
          have hd0 := h.prodDefault pid hcon
          rw [hd0] at hfarm
          exact hc (hfarm.symm.trans rfl)
        refine ⟨h.locked_eq, h.one_le_prod, ?_, h.one_le_txn, ?_, h.prodDefault, ?_,
          h.txnDefault⟩
        · dsimp only
          omega
        · dsimp only
          intro b hb1 hb2
          by_cases hbe : b = s.nextBatchId
          · subst hbe
            rw [Function.update_same]
            exact ⟨rfl, rfl, Nat.one_pos⟩
          · rw [Function.update_noteq hbe]
            exact h.hist b hb1 (by omega)
        · dsimp only
          intro b hb1 hb2
          by_cases hbe : b = s.nextBatchId
          · subst hbe
            rw [Function.update_same]
            exact hpid
          · rw [Function.update_noteq hbe]
            exact h.batchProd b hb1 (by omega)
  | recordEnv c b t hu l n now =>
      rcases stepOp_recordEnv c b t hu l n now s with hstep | hstep <;> rw [hstep]
      · exact h
      · exact ⟨h.locked_eq, h.one_le_prod, h.one_le_batch, h.one_le_txn, h.hist,
          h.prodDefault, h.batchProd, h.txnDefault⟩
  | transfer c b0 o st l now =>
      rcases stepOp_transfer c b0 o st l now s with hstep | hstep <;> rw [hstep]
      · exact h
      · refine ⟨h.locked_eq, h.one_le_prod, h.one_le_batch, h.one_le_txn, ?_,
            h.prodDefault, ?_, h.txnDefault⟩
        · dsimp only
          intro b hb1 hb2
          by_cases hbe : b = b0
          · subst hbe
            rw [Function.update_same]
            obtain ⟨x1, x2, x3⟩ := h.hist b hb1 hb2
            refine ⟨?_, ?_, ?_⟩ <;> simp only [List.length_append, List.length_cons,
              List.length_nil] <;> omega
          · rw [Function.update_noteq hbe]
            exact h.hist b hb1 hb2
        · dsimp only
          intro b hb1 hb2
          by_cases hbe : b = b0
          · subst hbe
            rw [Function.update_same]
            exact h.batchProd b hb1 hb2
          · rw [Function.update_noteq hbe]
            exact h.batchProd b hb1 hb2
  | setQuality c b0 q re =>
      rcases stepOp_setQuality c b0 q re s with hstep | ⟨hb01, hb02, hstep | hstep⟩ <;>
        rw [hstep]
      · exact h
      · refine ⟨h.locked_eq, h.one_le_prod, h.one_le_batch, h.one_le_txn, h.hist, ?_,
          h.batchProd, h.txnDefault⟩
        dsimp only
        intro p hp
        have hne : p ≠ (s.batches b0).productId := by
          obtain ⟨y1, y2⟩ := h.batchProd b0 hb01 hb02
          intro he
          exact hp (by rw [he]; exact ⟨y1, y2⟩)
        rw [Function.update_noteq hne]
        exact h.prodDefault p hp
      · refine ⟨h.locked_eq, h.one_le_prod, h.one_le_batch, h.one_le_txn, ?_, ?_,
            ?_, h.txnDefault⟩
        · dsimp only
          intro b hb1 hb2
          by_cases hbe : b = b0
          · subst hbe
            rw [Function.update_same]
            exact h.hist b hb1 hb2
          · rw [Function.update_noteq hbe]
            exact h.hist b hb1 hb2
        · dsimp only
          intro p hp
          have hne : p ≠ (s.batches b0).productId := by
            obtain ⟨y1, y2⟩ := h.batchProd b0 hb01 hb02
            intro he
            exact hp (by rw [he]; exact ⟨y1, y2⟩)
          rw [Function.update_noteq hne]
          exact h.prodDefault p hp
        · dsimp only
          intro b hb1 hb2
          by_cases hbe : b = b0
          · subst hbe
            rw [Function.update_same]
            exact h.batchProd b hb1 hb2
          · rw [Function.update_noteq hbe]
            exact h.batchProd b hb1 hb2
  | addNote c b0 n =>
      rcases stepOp_addNote c b0 n s with hstep | hstep <;> rw [hstep]
      · exact h
      · refine ⟨h.locked_eq, h.one_le_prod, h.one_le_batch, h.one_le_txn, ?_,
            h.prodDefault, ?_, h.txnDefault⟩
        · dsimp only
          intro b hb1 hb2
          by_cases hbe : b = b0
          · subst hbe
            rw [Function.update_same]
            exact h.hist b hb1 hb2
          · rw [Function.update_noteq hbe]
            exact h.hist b hb1 hb2
        · dsimp only
          intro b hb1 hb2
          by_cases hbe : b = b0
          · subst hbe
            rw [Function.update_same]
            exact h.batchProd b hb1 hb2
          · rw [Function.update_noteq hbe]
            exact h.batchProd b hb1 hb2
  | mkTxn c b0 buyer pr ty now =>
      rcases stepOp_mkTxn c b0 buyer pr ty now s with hstep | hstep <;> rw [hstep]
      · exact h
      · refine ⟨h.locked_eq, h.one_le_prod, h.one_le_batch, ?_, h.hist,
            h.prodDefault, h.batchProd, ?_⟩
        · dsimp only
          omega
        · dsimp only
          intro t ht
          have honet := h.one_le_txn
          have hne : t ≠ s.nextTransactionId := by omega
          rw [Function.update_noteq hne]
          refine h.txnDefault t ?_
          intro hcon
          exact ht ⟨hcon.1, by omega⟩
  | completeTxn c t0 v now =>
      rcases stepOp_completeTxn c t0 v now s with hstep | ⟨hbuyer, hstep⟩ <;> rw [hstep]
      · exact h
      · have ht0 : 0 < t0 ∧ t0 < s.nextTransactionId := by
          by_contra hcon
          have hd0 := h.txnDefault t0 hcon
          rw [hd0] at hbuyer
          exact hc hbuyer
        refine ⟨rfl, h.one_le_prod, h.one_le_batch, h.one_le_txn, ?_,
          h.prodDefault, ?_, ?_⟩
        · dsimp only
          intro b hb1 hb2
          by_cases hbe : b = (s.transactions t0).batchId
          · subst hbe
            rw [Function.update_same]
            obtain ⟨x1, x2, x3⟩ := h.hist _ hb1 hb2
            refine ⟨?_, ?_, ?_⟩ <;> simp only [List.length_append, List.length_cons,
              List.length_nil] <;> omega
          · rw [Function.update_noteq hbe]
            exact h.hist b hb1 hb2
        · dsimp only
          intro b hb1 hb2
          by_cases hbe : b = (s.transactions t0).batchId
          · subst hbe
            rw [Function.update_same]
            exact h.batchProd _ hb1 hb2
          · rw [Function.update_noteq hbe]
            exact h.batchProd b hb1 hb2
        · dsimp only
          intro t ht
          have hne : t ≠ t0 := by
            intro he
            exact ht (by rw [he]; exact ht0)
          rw [Function.update_noteq hne]
          exact h.txnDefault t ht
  | setReputation c p r =>
      rcases stepOp_setReputation c p r s with hstep | hstep <;> rw [hstep]
      · exact h
      · exact ⟨h.locked_eq, h.one_le_prod, h.one_le_batch, h.one_le_txn, h.hist,
          h.prodDefault, h.batchProd, h.txnDefault⟩
  | deactivate c p =>
      rcases stepOp_deactivate c p s with hstep | hstep <;> rw [hstep]
      · exact h
      · exact ⟨h.locked_eq, h.one_le_prod, h.one_le_batch, h.one_le_txn, h.hist,
          h.prodDefault, h.batchProd, h.txnDefault⟩

/-- Every reachable state satisfies the invariant. -/
lemma reachable_inv {s : State} (h : Reachable s) : Inv s := by
  induction h with
  | init d => exact inv_init d
  | step op _ hc ih => exact inv_step op ih hc

/-- A reverted call leaves the storage untouched, directly from the ledger
step semantics. -/
lemma stepOp_error {s : State} {op : Op} (h : ∃ e, exec op s = .error e) :
    stepOp s op = s := by
  obtain ⟨e, he⟩ := h
  simp only [stepOp, he]

/-- Lift a revert of `transferBatchOwnership` to the operation alphabet. -/
lemma exec_transfer_error {s : State} {c : Address} {b : Nat} {o : Address} {st : Stage}
    {l : String} {now : Nat} {e : Err}
    (h : transferBatchOwnership c b o st l now s = .error e) :
    exec (.transfer c b o st l now) s = .error e := by
  simp only [exec]
  rw [h]
  rfl

/-- Lift a revert of `completeTransaction` to the operation alphabet. -/
lemma exec_completeTxn_error {s : State} {c : Address} {t v now : Nat} {e : Err}
    (h : completeTransaction c t v now s = .error e) :
    exec (.completeTxn c t v now) s = .error e := by
  simp only [exec]
  rw [h]
  rfl

/-- No single call ever changes an already-assigned code-to-batch entry. -/
lemma stepOp_qr (s : State) (op : Op) (code : String) (h : s.qrCodeToBatch code ≠ 0) :
    (stepOp s op).qrCodeToBatch code = s.qrCodeToBatch code := by
  cases op with
  | register c n l r =>
      rcases stepOp_register c n l r s with hstep | hstep <;> rw [hstep]
  | mkProduct c n v q hd og ce =>
      rcases stepOp_mkProduct c n v q hd og ce s with hstep | hstep <;> rw [hstep]
  | mkBatch c pid qr l now =>
      rcases stepOp_mkBatch c pid qr l now s with hstep | ⟨hfarm, hqr, hstep⟩ <;> rw [hstep]
      dsimp only
      have hne : code ≠ qr := by
        intro he
        rw [he] at h
        exact h hqr
      rw [Function.update_noteq hne]
  | recordEnv c b t hu l n now =>
      rcases stepOp_recordEnv c b t hu l n now s with hstep | hstep <;> rw [hstep]
  | transfer c b0 o st l now =>
      rcases stepOp_transfer c b0 o st l now s with hstep | hstep <;> rw [hstep]
  | setQuality c b0 q re =>
      rcases stepOp_setQuality c b0 q re s with hstep | ⟨hb01, hb02, hstep | hstep⟩ <;>
        rw [hstep]
  | addNote c b0 n =>
      rcases stepOp_addNote c b0 n s with hstep | hstep <;> rw [hstep]
  | mkTxn c b0 buyer pr ty now =>
      rcases stepOp_mkTxn c b0 buyer pr ty now s with hstep | hstep <;> rw [hstep]
  | completeTxn c t0 v now =>
      rcases stepOp_completeTxn c t0 v now s with hstep | ⟨hbuyer, hstep⟩ <;> rw [hstep]
  | setReputation c p r =>
      rcases stepOp_setReputation c p r s with hstep | hstep <;> rw [hstep]
  | deactivate c p =>
      rcases stepOp_deactivate c p s with hstep | hstep <;> rw [hstep]

/-- An assigned code-to-batch entry survives any further sequence of calls. -/
lemma stepsFrom_qr {s t : State} (h : StepsFrom s t) (code : String)
    (h0 : s.qrCodeToBatch code ≠ 0) :
    t.qrCodeToBatch code = s.qrCodeToBatch code := by
  induction h with
  | refl => rfl
  | step op hst ih =>
      rw [stepOp_qr _ op code (by rw [ih]; exact h0), ih]

/-- With the code already mapped, `createBatch` can only revert. -/
lemma createBatch_code_taken (s : State) (c : Address) (pid : Nat) (code loc : String)
    (now : Nat) (h : s.qrCodeToBatch code ≠ 0) :
    ∃ e, createBatch c pid code loc now s = .error e := by
  unfold createBatch
  split_ifs <;> exact ⟨_, rfl⟩

/-- With the earlier authorization checks passing and the code already mapped,
`createBatch` reverts with the duplicate-code message. -/
lemma createBatch_duplicate (s : State) (c : Address) (pid : Nat) (code loc : String)
    (now : Nat) (hAct : (s.participants c).isActive = true)
    (hRole : (s.participants c).role = Role.Farmer)
    (hFarm : (s.products pid).farmer = c) (h : s.qrCodeToBatch code ≠ 0) :
    createBatch c pid code loc now s = .error "QR code already exists" := by
  unfold createBatch
  rw [if_neg (by simp [hAct]), if_neg (not_not_intro hRole),
    if_neg (not_not_intro hFarm), if_pos h]

lemma reachable_demoD : Reachable demoD :=
  Reachable.step _ (Reachable.step _ (Reachable.step _ (Reachable.step _
    (Reachable.init 1) (by decide)) (by decide)) (by decide)) (by decide)

lemma reachable_demoE : Reachable demoE :=
  Reachable.step _ reachable_demoD (by decide)


/-- C2: for every batch of every reachable state, the three parallel history
sequences — owners, locations, stage-change timestamps — have equal length,
and that length is at least 1 from the moment the batch is created. -/
theorem C2_history_invariant (s : State) (h : Reachable s) (bid : Nat)
    (hb1 : 0 < bid) (hb2 : bid < s.nextBatchId) :
    ∃ ow lo ts, getBatchHistory s bid = .ok (ow, lo, ts) ∧
      ow.length = lo.length ∧ lo.length = ts.length ∧ 1 ≤ ow.length := by
  obtain ⟨x1, x2, x3⟩ := (reachable_inv h).hist bid hb1 hb2
  refine ⟨_, _, _, ?_, x1, x2, x3⟩
  unfold getBatchHistory
  rw [if_neg (not_not_intro (⟨hb1, hb2⟩ : 0 < bid ∧ bid < s.nextBatchId))]

/-- C2 witness: batch 1 of the demo state, reached by an actual call sequence,
has the three histories of equal length 1. -/
theorem C2_witness :
    ∃ ow lo ts, getBatchHistory demoD 1 = .ok (ow, lo, ts) ∧
      ow.length = lo.length ∧ lo.length = ts.length ∧ 1 ≤ ow.length :=
  C2_history_invariant demoD reachable_demoD 1 (by decide) (by decide)

/-- C4: every rejected operation leaves the full entity set unchanged from its
pre-call state — the step taken by a reverted call is the identity on the
whole storage record, so no partial field update survives any failure. -/
theorem C4_rollback_atomicity (s : State) (op : Op)
    (h : ∃ e, exec op s = .error e) : stepOp s op = s :=
  stepOp_error h

/-- C4 witness: a rejected registration (empty name) leaves the fresh
deployment state identical. -/
theorem C4_witness :
    stepOp (initialState 1) (Op.register 1 "" "Loc" Role.Farmer) = initialState 1 :=
  C4_rollback_atomicity (initialState 1) (Op.register 1 "" "Loc" Role.Farmer)
    ⟨"Name cannot be empty", rfl⟩

/-- C6 counterexample: `getProductInfo` on the never-assigned product id 5 of
a fresh deployment answers (`.ok` with the zero record) instead of being
rejected — the source function performs no existence check, so the claimed
`NotFound` failure never happens. -/
theorem C6_counterexample :
    getProductInfo (initialState 1) 5 =
      .ok ("", "", 0, 0, Quality.Excellent, false, []) := rfl

/-- C6 amended: `getProductInfo` never rejects; for a productId that is 0 or
at least the next unassigned id it answers with the zero record (empty
strings, zero quantity, zero farmer address, quality Excellent, not organic,
no certifications). -/
theorem C6_amended_answers_default (s : State) (h : Reachable s) (pid : Nat)
    (hp : pid = 0 ∨ s.nextProductId ≤ pid) :
    getProductInfo s pid = .ok ("", "", 0, 0, Quality.Excellent, false, []) := by
  have hd : s.products pid = defaultProduct :=
    (reachable_inv h).prodDefault pid (by omega)
  unfold getProductInfo
  rw [hd]
  rfl

/-- C6 witness: in the demo state (two products at most), product id 5 is
unassigned and the query answers the zero record. -/
theorem C6_witness :
    getProductInfo demoD 5 = .ok ("", "", 0, 0, Quality.Excellent, false, []) :=
  C6_amended_answers_default demoD reachable_demoD 5 (by decide)

/-- C8 counterexample: `deactivateParticipant` called by the contract owner on
the never-registered principal 7 succeeds (the body has no existence check),
returning the storage unchanged — it does not fail with `NotFound` as the
claim states. -/
theorem C8_counterexample :
    deactivateParticipant 1 7 (initialState 1) = .ok (initialState 1, ()) := by
  show Except.ok ({ initialState 1 with participants := (Function.update
      (initialState 1).participants 7
      { (initialState 1).participants 7 with isActive := false }) }, ()) =
    Except.ok (initialState 1, ())
  rw [show ({ (initialState 1).participants 7 with isActive := false } : Participant) =
    (initialState 1).participants 7 from rfl, Function.update_eq_self]

/-- C8 amended: for a never-registered principal (whose slot still holds the
zero record, which is already inactive), the administrative deactivate
operation succeeds and changes no state at all. -/
theorem C8_amended_noop (s : State) (caller p : Address)
    (hc : caller = s.owner) (hp : s.participants p = defaultParticipant) :
    deactivateParticipant caller p s = .ok (s, ()) := by
  simp only [deactivateParticipant, if_neg (not_not_intro hc)]
  have h1 : ({ s.participants p with isActive := false } : Participant) =
      s.participants p := by rw [hp]; rfl
  rw [h1, Function.update_eq_self]

/-- C8 witness: the amended statement at the concrete never-registered
principal 9 of a fresh deployment. -/
theorem C8_witness :
    deactivateParticipant 1 9 (initialState 1) = .ok (initialState 1, ()) :=
  C8_amended_noop (initialState 1) 1 9 rfl rfl

/-- C10: registration only rejects a currently active principal — after the
owner deactivates a principal, a new registration for it succeeds and
overwrites name, location and role, resetting the reputation to 100. -/
theorem C10_reregister_after_deactivate (s : State) (caller p : Address)
    (name loc : String) (role : Role)
    (hc : caller = s.owner) (hn : name ≠ "") (hl : loc ≠ "") :
    ∃ s1 s2, deactivateParticipant caller p s = .ok (s1, ()) ∧
      registerParticipant p name loc role s1 = .ok (s2, ()) ∧
      s2.participants p = ⟨name, loc, role, true, 100⟩ := by
  refine ⟨{ s with participants := (Function.update s.participants p
      { s.participants p with isActive := false }) },
    { s with participants := (Function.update
      (Function.update s.participants p { s.participants p with isActive := false }) p
      ⟨name, loc, role, true, 100⟩) }, ?_, ?_, ?_⟩
  · simp only [deactivateParticipant, if_neg (not_not_intro hc)]
  · simp only [registerParticipant]
    rw [if_neg (show ¬((Function.update s.participants p
        { s.participants p with isActive := false } p).isActive = true) by
        rw [Function.update_same]; exact Bool.false_ne_true), if_neg hn, if_neg hl]
  · dsimp only
    rw [Function.update_same]

/-- C10 witness: deactivating then re-registering principal 1 (an active
producer in the demo state) succeeds with a fresh retailer record. -/
theorem C10_witness :
    ∃ s1 s2, deactivateParticipant 1 1 demoD = .ok (s1, ()) ∧
      registerParticipant 1 "Farm B" "Oregon" Role.Retailer s1 = .ok (s2, ()) ∧
      s2.participants 1 = ⟨"Farm B", "Oregon", Role.Retailer, true, 100⟩ :=
  C10_reregister_after_deactivate demoD 1 1 "Farm B" "Oregon" Role.Retailer
    (by decide) (by decide) (by decide)

/-- C3: `transferOwnership` on an existing batch succeeds only when the
requested new stage is strictly greater than the current stage; any call with
an equal or lower stage reverts and leaves the storage (hence the batch)
unchanged, and when all the preceding authorization checks pass the revert is
one of the two non-monotonic-stage messages. -/
theorem C3_monotonic_stage (s : State) (caller : Address) (bid : Nat)
    (newOwner : Address) (newStage : Stage) (newLoc : String) (now : Nat) :
    (∀ s2 r, transferBatchOwnership caller bid newOwner newStage newLoc now s = .ok (s2, r) →
      (s.batches bid).currentStage.toNat < newStage.toNat) ∧
    (newStage.toNat ≤ (s.batches bid).currentStage.toNat →
      (∃ e, transferBatchOwnership caller bid newOwner newStage newLoc now s = .error e) ∧
      stepOp s (.transfer caller bid newOwner newStage newLoc now) = s) ∧
    (0 < bid ∧ bid < s.nextBatchId → (s.batches bid).currentOwner = caller →
      (s.participants caller).isActive = true →
      (s.participants newOwner).isActive = true →
      newStage.toNat ≤ (s.batches bid).currentStage.toNat →
      (transferBatchOwnership caller bid newOwner newStage newLoc now s =
          .error "Stage must change" ∨
       transferBatchOwnership caller bid newOwner newStage newLoc now s =
          .error "Stage must progress forward")) := by
  refine ⟨?_, ?_, ?_⟩
  · intro s2 r hok
    unfold transferBatchOwnership at hok
    split_ifs at hok
    assumption
  · intro hle
    have herr : ∃ e,
        transferBatchOwnership caller bid newOwner newStage newLoc now s = .error e := by
      unfold transferBatchOwnership
      split_ifs <;> first | exact ⟨_, rfl⟩ | omega
    obtain ⟨e, he⟩ := herr
    exact ⟨⟨e, he⟩, stepOp_error ⟨e, exec_transfer_error he⟩⟩
  · intro hb hown hact hnew hle
    unfold transferBatchOwnership
    split_ifs <;>
      first
        | exact Or.inl rfl
        | exact Or.inr rfl
        | omega
        | simp_all
  
/-- C3 witness: on the demo batch (stage Harvested, owner 1), requesting the
equal stage Harvested reverts and leaves the state identical. -/
theorem C3_witness :
    (∃ e, transferBatchOwnership 1 1 2 Stage.Harvested "Plant" 999 demoD = .error e) ∧
    stepOp demoD (.transfer 1 1 2 Stage.Harvested "Plant" 999) = demoD :=
  (C3_monotonic_stage demoD 1 1 2 Stage.Harvested "Plant" 999).2.1 (by decide)

/-- C5: a successful `createBatch` assigns the fresh batch id to the code,
`getBatchByQR` answers that id from then on after any further call sequence,
and every later `createBatch` with the same code reverts — with the
duplicate-code message once the earlier authorization checks pass — so the
code-to-batch mapping is write-once. -/
theorem C5_code_write_once (s : State) (c : Address) (pid : Nat) (code loc : String)
    (now : Nat) (h0 : 0 < s.nextBatchId)
    (hAct : (s.participants c).isActive = true)
    (hRole : (s.participants c).role = Role.Farmer)
    (hFarm : (s.products pid).farmer = c)
    (hQR : s.qrCodeToBatch code = 0) (hcode : code ≠ "") (hloc : loc ≠ "") :
    ∃ s1, createBatch c pid code loc now s = .ok (s1, s.nextBatchId) ∧
      getBatchByQR s1 code = .ok s.nextBatchId ∧
      (∀ s2, StepsFrom s1 s2 →
        getBatchByQR s2 code = .ok s.nextBatchId ∧
        (∀ c2 pid2 loc2 now2, ∃ e, createBatch c2 pid2 code loc2 now2 s2 = .error e) ∧
        (∀ c2 pid2 loc2 now2, (s2.participants c2).isActive = true →
          (s2.participants c2).role = Role.Farmer → (s2.products pid2).farmer = c2 →
          createBatch c2 pid2 code loc2 now2 s2 = .error "QR code already exists")) := by
  have hok : createBatch c pid code loc now s = .ok
      ({ s with
          batches := (Function.update s.batches s.nextBatchId
            ⟨s.nextBatchId, pid, Stage.Harvested, c, now, loc, [c], [loc], [now], ""⟩),
          qrCodeToBatch := (Function.update s.qrCodeToBatch code s.nextBatchId),
          nextBatchId := s.nextBatchId + 1 }, s.nextBatchId) := by
    unfold createBatch
    rw [if_neg (by simp [hAct]), if_neg (not_not_intro hRole),
      if_neg (not_not_intro hFarm), if_neg (not_not_intro hQR), if_neg hcode,
      if_neg hloc]
  refine ⟨_, hok, ?_, ?_⟩
  · unfold getBatchByQR
    dsimp only
    rw [Function.update_same]
  · intro s2 hsteps
    have hq1 : (({ s with
        batches := (Function.update s.batches s.nextBatchId
          ⟨s.nextBatchId, pid, Stage.Harvested, c, now, loc, [c], [loc], [now], ""⟩),
        qrCodeToBatch := (Function.update s.qrCodeToBatch code s.nextBatchId),
        nextBatchId := s.nextBatchId + 1 } : State).qrCodeToBatch) code = s.nextBatchId := by
      dsimp only
      rw [Function.update_same]
    have hq2 : s2.qrCodeToBatch code = s.nextBatchId := by
      rw [stepsFrom_qr hsteps code (by rw [hq1]; omega), hq1]
    have hne2 : s2.qrCodeToBatch code ≠ 0 := by rw [hq2]; omega
    refine ⟨?_, ?_, ?_⟩
    · unfold getBatchByQR
      rw [hq2]
    · intro c2 pid2 loc2 now2
      exact createBatch_code_taken s2 c2 pid2 code loc2 now2 hne2
    · intro c2 pid2 loc2 now2 a1 a2 a3
      exact createBatch_duplicate s2 c2 pid2 code loc2 now2 a1 a2 a3 hne2

/-- C5 witness: creating a batch under code `QR2` in the demo state, then any
later attempt with the same code is rejected. -/
theorem C5_witness :
    ∃ s1, createBatch 1 1 "QR2" "Depot" 7 demoC = .ok (s1, demoC.nextBatchId) ∧
      getBatchByQR s1 "QR2" = .ok demoC.nextBatchId ∧
      (∀ s2, StepsFrom s1 s2 →
        getBatchByQR s2 "QR2" = .ok demoC.nextBatchId ∧
        (∀ c2 pid2 loc2 now2, ∃ e, createBatch c2 pid2 "QR2" loc2 now2 s2 = .error e) ∧
        (∀ c2 pid2 loc2 now2, (s2.participants c2).isActive = true →
          (s2.participants c2).role = Role.Farmer → (s2.products pid2).farmer = c2 →
          createBatch c2 pid2 "QR2" loc2 now2 s2 = .error "QR code already exists")) :=
  C5_code_write_once demoC 1 1 "QR2" "Depot" 7 (by decide) (by decide) (by decide)
    (by decide) (by decide) (by decide) (by decide)

/-- C7 counterexample: `recordEnvironmentData` declares no return value — its
successful result carries only the unit value, identical for two pre-states
whose prior record counts differ (0 for `demoD`, 1 for `demoF`) — so the call
does not return the prior `count(batchId)` as the claim states. -/
theorem C7_counterexample :
    (recordEnvironmentData 1 1 5 60 "Cold room" "" 300 demoD).map Prod.snd = .ok () ∧
    (recordEnvironmentData 1 1 5 60 "Cold room" "" 300 demoF).map Prod.snd = .ok () ∧
    getEnvironmentDataCount demoD 1 = .ok 0 ∧
    getEnvironmentDataCount demoF 1 = .ok 1 :=
  ⟨rfl, rfl, rfl, rfl⟩

/-- C7 amended: under its preconditions (active caller, existing batch,
non-empty location), `recordEnvironmentData` appends exactly one
ProvenanceRecord carrying the caller and the current time; the new record sits
at the index equal to the value `count(batchId)` had immediately before the
call (the function itself returns no value). -/
theorem C7_amended_appends_at_prior_count (s : State) (caller : Address) (bid : Nat)
    (temp : Int) (hum : Nat) (loc notes : String) (now : Nat)
    (hAct : (s.participants caller).isActive = true)
    (hb1 : 0 < bid) (hb2 : bid < s.nextBatchId) (hloc : loc ≠ "") :
    ∃ s1, recordEnvironmentData caller bid temp hum loc notes now s = .ok (s1, ()) ∧
      s1.batchEnvironmentData bid =
        s.batchEnvironmentData bid ++ [⟨now, temp, hum, loc, caller, notes⟩] ∧
      getEnvironmentDataCount s bid = .ok (s.batchEnvironmentData bid).length ∧
      getEnvironmentDataCount s1 bid = .ok ((s.batchEnvironmentData bid).length + 1) ∧
      getEnvironmentData s1 bid (s.batchEnvironmentData bid).length =
        .ok (now, temp, hum, loc, caller, notes) := by
  have hvalid : ¬¬(0 < bid ∧ bid < s.nextBatchId) := not_not_intro ⟨hb1, hb2⟩
  have hok : recordEnvironmentData caller bid temp hum loc notes now s = .ok
      ({ s with batchEnvironmentData := (Function.update s.batchEnvironmentData bid
          (s.batchEnvironmentData bid ++ [⟨now, temp, hum, loc, caller, notes⟩])) }, ()) := by
    unfold recordEnvironmentData
    rw [if_neg (by simp [hAct]), if_neg hvalid, if_neg hloc]
  have hlog : (({ s with batchEnvironmentData := (Function.update s.batchEnvironmentData bid
      (s.batchEnvironmentData bid ++ [⟨now, temp, hum, loc, caller, notes⟩])) } :
        State).batchEnvironmentData) bid =
      s.batchEnvironmentData bid ++ [⟨now, temp, hum, loc, caller, notes⟩] := by
    dsimp only
    rw [Function.update_same]
  refine ⟨_, hok, hlog, ?_, ?_, ?_⟩
  · unfold getEnvironmentDataCount
    rw [if_neg hvalid]
  · unfold getEnvironmentDataCount
    dsimp only
    rw [if_neg hvalid, Function.update_same]
    simp [List.length_append]
  · unfold getEnvironmentData
    dsimp only
    rw [Function.update_same, if_neg hvalid,
      if_neg (not_not_intro (by simp [List.length_append]))]
    rw [List.getD_eq_getElem?_getD, List.getElem?_concat_length]
    rfl

/-- C7 witness: recording on the demo batch with one existing record appends
at index 1, the prior count. -/
theorem C7_witness :
    ∃ s1, recordEnvironmentData 1 1 (-3) 55 "Truck" "check" 400 demoF = .ok (s1, ()) ∧
      s1.batchEnvironmentData 1 =
        demoF.batchEnvironmentData 1 ++ [⟨400, -3, 55, "Truck", 1, "check"⟩] ∧
      getEnvironmentDataCount demoF 1 = .ok (demoF.batchEnvironmentData 1).length ∧
      getEnvironmentDataCount s1 1 = .ok ((demoF.batchEnvironmentData 1).length + 1) ∧
      getEnvironmentData s1 1 (demoF.batchEnvironmentData 1).length =
        .ok (400, -3, 55, "Truck", 1, "check") :=
  C7_amended_appends_at_prior_count demoF 1 1 (-3) 55 "Truck" "check" 400
    (by decide) (by decide) (by decide) (by decide)

/-- C9: `completeTransaction` requires the named transaction to exist — an id
never assigned by `createTransaction` is rejected with no state change (its
slot still holds the zero record, whose buyer is the zero address, never a
sender) — and on an existing transaction it is rejected with the not-the-buyer
message when the caller is not the stored buyer, the already-completed message
when the completed flag is set, and the insufficient-payment message when the
payment is below the agreed price. -/
theorem C9_complete_transaction_guards (s : State) (h : Reachable s)
    (caller : Address) (txId v now : Nat) (h0 : caller ≠ 0) :
    ((txId = 0 ∨ s.nextTransactionId ≤ txId) →
      (∃ e, completeTransaction caller txId v now s = .error e) ∧
      stepOp s (.completeTxn caller txId v now) = s) ∧
    (caller ≠ (s.transactions txId).toAddr →
      completeTransaction caller txId v now s = .error "Not the buyer") ∧
    (caller = (s.transactions txId).toAddr → (s.transactions txId).completed = true →
      completeTransaction caller txId v now s = .error "Already completed") ∧
    (caller = (s.transactions txId).toAddr → (s.transactions txId).completed = false →
      v < (s.transactions txId).price →
      completeTransaction caller txId v now s = .error "Insufficient payment") := by
  have hl : s.locked = false := (reachable_inv h).locked_eq
  have hNB : caller ≠ (s.transactions txId).toAddr →
      completeTransaction caller txId v now s = .error "Not the buyer" := by
    intro hne
    simp only [completeTransaction, completeTransactionCore]
    rw [if_neg (by simp [hl]), if_pos hne]
  refine ⟨?_, hNB, ?_, ?_⟩
  · intro hid
    have hdef : s.transactions txId = defaultTxn :=
      (reachable_inv h).txnDefault txId (by omega)
    have hne : caller ≠ (s.transactions txId).toAddr := by
      rw [hdef]
      exact h0
    have herr := hNB hne
    exact ⟨⟨_, herr⟩, stepOp_error ⟨_, exec_completeTxn_error herr⟩⟩
  · intro heq hcomp
    simp only [completeTransaction, completeTransactionCore]
    rw [if_neg (by simp [hl]), if_neg (not_not_intro heq), if_pos hcomp]
  · intro heq hcomp hv
    simp only [completeTransaction, completeTransactionCore]
    rw [if_neg (by simp [hl]), if_neg (not_not_intro heq), if_neg (by simp [hcomp]),
      if_pos hv]

/-- C9 witness: on a fresh deployment, the never-assigned transaction id 5 is
rejected by caller 2 with no state change. -/
theorem C9_witness :
    (∃ e, completeTransaction 2 5 0 0 (initialState 1) = .error e) ∧
    stepOp (initialState 1) (Op.completeTxn 2 5 0 0) = initialState 1 :=
  (C9_complete_transaction_guards (initialState 1) (Reachable.init 1) 2 5 0 0
    (by decide)).1 (by decide)

/-- C1: within a successful `completeTransaction`, the completed flag is set
and the batch owner is reassigned to the buyer (one history triple appended,
stage and location unchanged) in the state paired with the pending value
transfers — i.e. before any transfer to the seller is performed; a reentrant
call at the transfer moment is rejected (by the held guard), a call on the
settled state is rejected for every caller and leaves the state unchanged,
and the buyer in particular observes the already-completed message. -/
theorem C1_at_most_once_settlement (s : State) (caller : Address) (txId v now : Nat)
    (hl : s.locked = false)
    (hb : caller = (s.transactions txId).toAddr)
    (hnc : (s.transactions txId).completed = false)
    (hp : (s.transactions txId).price ≤ v) :
    completeTransactionCore caller txId v now s =
      .ok (settlementState s txId now,
        [((s.transactions txId).fromAddr, (s.transactions txId).price)] ++
          (if (s.transactions txId).price < v then
            [(caller, v - (s.transactions txId).price)] else [])) ∧
    ((settlementState s txId now).transactions txId).completed = true ∧
    ((settlementState s txId now).batches (s.transactions txId).batchId).currentOwner =
      (s.transactions txId).toAddr ∧
    ((settlementState s txId now).batches (s.transactions txId).batchId).currentStage =
      (s.batches (s.transactions txId).batchId).currentStage ∧
    ((settlementState s txId now).batches (s.transactions txId).batchId).location =
      (s.batches (s.transactions txId).batchId).location ∧
    ((settlementState s txId now).batches (s.transactions txId).batchId).ownershipHistory =
      (s.batches (s.transactions txId).batchId).ownershipHistory ++
        [(s.transactions txId).toAddr] ∧
    ((settlementState s txId now).batches (s.transactions txId).batchId).locationHistory =
      (s.batches (s.transactions txId).batchId).locationHistory ++
        [(s.batches (s.transactions txId).batchId).location] ∧
    ((settlementState s txId now).batches (s.transactions txId).batchId).stageTimestamps =
      (s.batches (s.transactions txId).batchId).stageTimestamps ++ [now] ∧
    (settlementState s txId now).locked = true ∧
    (∀ c2 v2 n2, completeTransactionCore c2 txId v2 n2 (settlementState s txId now) =
      .error "ReentrancyGuard: reentrant call") ∧
    completeTransaction caller txId v now s = .ok (settledState s txId now, ()) ∧
    (∀ c2 v2 n2, ∃ e, completeTransaction c2 txId v2 n2 (settledState s txId now) =
      .error e) ∧
    (∀ v2 n2, completeTransaction caller txId v2 n2 (settledState s txId now) =
      .error "Already completed") ∧
    (∀ c2 v2 n2, stepOp (settledState s txId now) (.completeTxn c2 txId v2 n2) =
      settledState s txId now) := by
  have hcore : completeTransactionCore caller txId v now s =
      .ok (settlementState s txId now,
        [((s.transactions txId).fromAddr, (s.transactions txId).price)] ++
          (if (s.transactions txId).price < v then
            [(caller, v - (s.transactions txId).price)] else [])) := by
    simp only [completeTransactionCore]
    rw [if_neg (by simp [hl]), if_neg (not_not_intro hb), if_neg (by simp [hnc]),
      if_neg (Nat.not_lt.mpr hp)]
    rfl
  have hT : (settlementState s txId now).transactions txId =
      { s.transactions txId with completed := true } := by
    unfold settlementState
    dsimp only
    rw [Function.update_same]
  have hBat : (settlementState s txId now).batches (s.transactions txId).batchId =
      { s.batches (s.transactions txId).batchId with
        currentOwner := (s.transactions txId).toAddr, timestamp := now,
        ownershipHistory := ((s.batches (s.transactions txId).batchId).ownershipHistory ++
          [(s.transactions txId).toAddr]),
        locationHistory := ((s.batches (s.transactions txId).batchId).locationHistory ++
          [(s.batches (s.transactions txId).batchId).location]),
        stageTimestamps := ((s.batches (s.transactions txId).batchId).stageTimestamps ++
          [now]) } := by
    unfold settlementState
    dsimp only
    rw [Function.update_same]
  have hFT : (settledState s txId now).transactions txId =
      { s.transactions txId with completed := true } := hT
  have hbF : caller = ((settledState s txId now).transactions txId).toAddr := by
    rw [hFT]
    exact hb
  have hcF : ((settledState s txId now).transactions txId).completed = true := by
    rw [hFT]
  have hlF : (settledState s txId now).locked = false := rfl
  have hAC : ∀ v2 n2, completeTransaction caller txId v2 n2 (settledState s txId now) =
      .error "Already completed" := by
    intro v2 n2
    simp only [completeTransaction, completeTransactionCore]
    rw [if_neg (by simp [hlF]), if_neg (not_not_intro hbF), if_pos hcF]
  have hAny : ∀ c2 v2 n2, ∃ e,
      completeTransaction c2 txId v2 n2 (settledState s txId now) = .error e := by
    intro c2 v2 n2
    by_cases hc2 : c2 = ((settledState s txId now).transactions txId).toAddr
    · refine ⟨"Already completed", ?_⟩
      simp only [completeTransaction, completeTransactionCore]
      rw [if_neg (by simp [hlF]), if_neg (not_not_intro hc2), if_pos hcF]
    · refine ⟨"Not the buyer", ?_⟩
      simp only [completeTransaction, completeTransactionCore]
      rw [if_neg (by simp [hlF]), if_pos hc2]
  refine ⟨hcore, by rw [hT], by rw [hBat], by rw [hBat], by rw [hBat], by rw [hBat],
    by rw [hBat], by rw [hBat], rfl, ?_, ?_, hAny, hAC, ?_⟩
  · intro c2 v2 n2
    simp only [completeTransactionCore]
    rw [if_pos (show (settlementState s txId now).locked = true from rfl)]
  · simp only [completeTransaction]
    rw [hcore]
    rfl
  · intro c2 v2 n2
    obtain ⟨e, he⟩ := hAny c2 v2 n2
    exact stepOp_error ⟨e, exec_completeTxn_error he⟩

/-- C1 witness: the demo escrow (buyer 2, price 100) settled with payment 150
at time 300 — flag set and owner reassigned before the transfers, every
subsequent call rejected. -/
theorem C1_witness :
    completeTransactionCore 2 1 150 300 demoE =
      .ok (settlementState demoE 1 300,
        [((demoE.transactions 1).fromAddr, (demoE.transactions 1).price)] ++
          (if (demoE.transactions 1).price < 150 then
            [(2, 150 - (demoE.transactions 1).price)] else [])) ∧
    ((settlementState demoE 1 300).transactions 1).completed = true ∧
    ((settlementState demoE 1 300).batches (demoE.transactions 1).batchId).currentOwner =
      (demoE.transactions 1).toAddr ∧
    ((settlementState demoE 1 300).batches (demoE.transactions 1).batchId).currentStage =
      (demoE.batches (demoE.transactions 1).batchId).currentStage ∧
    ((settlementState demoE 1 300).batches (demoE.transactions 1).batchId).location =
      (demoE.batches (demoE.transactions 1).batchId).location ∧
    ((settlementState demoE 1 300).batches (demoE.transactions 1).batchId).ownershipHistory =
      (demoE.batches (demoE.transactions 1).batchId).ownershipHistory ++
        [(demoE.transactions 1).toAddr] ∧
    ((settlementState demoE 1 300).batches (demoE.transactions 1).batchId).locationHistory =
      (demoE.batches (demoE.transactions 1).batchId).locationHistory ++
        [(demoE.batches (demoE.transactions 1).batchId).location] ∧
    ((settlementState demoE 1 300).batches (demoE.transactions 1).batchId).stageTimestamps =
      (demoE.batches (demoE.transactions 1).batchId).stageTimestamps ++ [300] ∧
    (settlementState demoE 1 300).locked = true ∧
    (∀ c2 v2 n2, completeTransactionCore c2 1 v2 n2 (settlementState demoE 1 300) =
      .error "ReentrancyGuard: reentrant call") ∧
    completeTransaction 2 1 150 300 demoE = .ok (settledState demoE 1 300, ()) ∧
    (∀ c2 v2 n2, ∃ e, completeTransaction c2 1 v2 n2 (settledState demoE 1 300) =
      .error e) ∧
    (∀ v2 n2, completeTransaction 2 1 v2 n2 (settledState demoE 1 300) =
      .error "Already completed") ∧
    (∀ c2 v2 n2, stepOp (settledState demoE 1 300) (.completeTxn c2 1 v2 n2) =
      settledState demoE 1 300) :=
  C1_at_most_once_settlement demoE 2 1 150 300 (by decide) (by decide) (by decide)
    (by decide)

end Agri
